import Mathlib

/-!
Verification development for the openclaw-bd-identity plugin (src/index.ts).

The repository contains two evolving copies of the plugin in one file
(an `agent_self`/`bd_project`/`specs` version, called v1 below, and an
older `bd_identity`/`bd_project` version, called v2).  The label
derivation, identity resolution and creation-label logic are identical
in both copies; where the copies differ (the `agentId` default in the
tool context) the difference is modelled explicitly.

The external bead store (`bd` CLI) is modelled as a list of records in
creation order; each `bd` primitive (create, show, update, label
add/remove, comment add, close, query) is modelled as a pure operation
on that list, assumed atomic and successful unless a claim is
specifically about a failing call, in which case the call outcome is an
explicit `Except` parameter.
-/

namespace BdIdentity

/-- The reserved label marking identity beads (src/index.ts line 38). -/
def IDENTITY_LABEL : String := "agent-identity"

-- ─── String helpers mirroring the JavaScript primitives ───────────

/-- JS `hay.includes(needle)`: substring containment. -/
def strContains (hay needle : String) : Bool :=
  decide (needle.data <:+: hay.data)

/-- JS `/^\d+$/.test s`: non-empty and all decimal digits. -/
def isNumericStr (s : String) : Bool :=
  !s.data.isEmpty && s.data.all Char.isDigit

/-- JS `/^\d{15,}$/.test s`: fifteen or more decimal digits and nothing else
(the snowflake-style channel id test used by `sessionKeyToLabels` and
`findIdentityBead`). -/
def isSnowflake (s : String) : Bool :=
  decide (s.data.length ≥ 15) && s.data.all Char.isDigit

/-- JS `a || b` on strings, where `undefined` is modelled as `""`. -/
def jsOr (a b : String) : String :=
  if a = "" then b else a

/-- JS `s.trim()`: strip leading and trailing whitespace. -/
def jsTrim (s : String) : String :=
  String.mk (((s.data.dropWhile Char.isWhitespace).reverse.dropWhile
    Char.isWhitespace).reverse)

/-- JS `opt || dflt` where `opt` came from `Array.prototype.find`
(`undefined` when absent, and an empty-string hit is falsy too). -/
def jsOrOpt (o : Option String) (b : String) : String :=
  jsOr (o.getD "") b

/-- Worker for `jsSplit`: accumulate the current segment (reversed). -/
def jsSplitAux (sep : Char) : List Char → List Char → List String
  | [], acc => [String.mk acc.reverse]
  | c :: rest, acc =>
    if c = sep then String.mk acc.reverse :: jsSplitAux sep rest []
    else jsSplitAux sep rest (c :: acc)

/-- JS `s.split(sep)` for a one-character separator
(`"".split(":") = [""]`, `"a:".split(":") = ["a", ""]`). -/
def jsSplit (s : String) (sep : Char) : List String :=
  jsSplitAux sep s.data []

/-- JS `s.toLowerCase()` (ASCII case mapping). -/
def jsToLower (s : String) : String :=
  String.mk (s.data.map Char.toLower)

/-- JS `s.startsWith(p)`. -/
def jsStartsWith (s p : String) : Bool :=
  p.data.isPrefixOf s.data

/-- Newline-joined rendering, modelling multi-line CLI output. -/
def joinNl : List String → String
  | [] => ""
  | [x] => x
  | x :: xs => x ++ "\n" ++ joinNl xs

-- ─── The bead store model ─────────────────────────────────────────

/-- Status of a bead: open or closed (soft delete). -/
inductive Status where
  | opened
  | closed
deriving DecidableEq, Repr

/-- A generic bead record as the store keeps it. -/
structure Bead where
  id : String
  title : String
  description : String
  labels : List String
  parent : Option String
  status : Status
  comments : List String
deriving DecidableEq, Repr

/-- The store: beads in creation order (query results preserve it). -/
abbrev Store := List Bead

/-- Model of `bd show <id>` succeeding: first bead with the given id. -/
def lookup (s : Store) (bid : String) : Option Bead :=
  s.find? (fun b => b.id = bid)

/-- Apply an id-preserving update to the bead with the given id. -/
def updateBead (s : Store) (bid : String) (f : Bead → Bead) : Store :=
  s.map (fun b => if b.id = bid then f b else b)

/-- Model of `bd update <id> --description <d>`: full description replace. -/
def setDescStore (s : Store) (bid d : String) : Store :=
  updateBead s bid (fun b => { b with description := d })

/-- Model of `bd label add <id> <l>`: labels are a set, adding is idempotent. -/
def addLabelStore (s : Store) (bid l : String) : Store :=
  updateBead s bid (fun b =>
    { b with labels := if b.labels.contains l then b.labels else b.labels ++ [l] })

/-- Model of `bd label remove <id> <l>`. -/
def removeLabelStore (s : Store) (bid l : String) : Store :=
  updateBead s bid (fun b => { b with labels := b.labels.filter (fun x => x ≠ l) })

/-- Model of `bd comments add <id> <text>`. -/
def addCommentStore (s : Store) (bid text : String) : Store :=
  updateBead s bid (fun b => { b with comments := b.comments ++ [text] })

/-- Model of `bd close <id>`. -/
def closeStore (s : Store) (bid : String) : Store :=
  updateBead s bid (fun b => { b with status := Status.closed })

/-- Model of `bd update <id> --parent <p>`. -/
def setParentStore (s : Store) (bid p : String) : Store :=
  updateBead s bid (fun b => { b with parent := some p })

/-- Model of `bd create <title> --labels <ls>` (also `bd q`): a fresh open bead. -/
def mkBead (bid title : String) (labels : List String) : Bead :=
  { id := bid, title := title, description := "", labels := labels,
    parent := none, status := Status.opened, comments := [] }

/-- Append a freshly created bead to the store. -/
def createBeadStore (s : Store) (bid title : String) (labels : List String) : Store :=
  s ++ [mkBead bid title labels]

-- ─── LabelDeriver: sessionKeyToLabels (v1 lines 341-365, v2 1616-1640) ──

/-- The `sessionKeyToLabels` function: derive candidate labels from the session key.
`agentId` is `Option String` because the TS parameter is optional; a
supplied empty string is falsy in JS and is likewise not pushed here. -/
def sessionKeyToLabels (sessionKey : String) (agentId : Option String) : List String :=
  (if (jsSplit sessionKey ':').length ≥ 2 then
    (if (jsSplit sessionKey ':').getD 1 "" = "main"
        && (jsSplit sessionKey ':').getD 2 "" = "main" then
      ["main-session"]
     else []) ++
    (match (jsSplit sessionKey ':').findIdx? (fun p => p = "discord") with
     | none => []
     | some di =>
       match (((jsSplit sessionKey ':').drop (di + 1)).reverse).find? isSnowflake with
       | some tok => [tok]
       | none => [])
   else []) ++
  (match agentId with
   | some a => if a = "" then [] else [a]
   | none => [])

-- ─── IdentityResolver: findIdentityBead (v1 lines 367-408) ────────

/-- Does a bead satisfy the query `label=agent-identity AND label=l`? -/
def matchesIdentityAnd (l : String) (b : Bead) : Bool :=
  b.labels.contains IDENTITY_LABEL && b.labels.contains l

/-- One iteration of strategy A: query `agent-identity AND label=l`,
return the first hit's id when it is truthy. -/
def strategyAOne (s : Store) (l : String) : Option String :=
  match (s.filter (matchesIdentityAnd l)).head? with
  | some b => if b.id = "" then none else some b.id
  | none => none

/-- Strategy A (exact label match), first label in order that hits. -/
def strategyA (s : Store) (searchLabels : List String) : Option String :=
  searchLabels.findSome? (strategyAOne s)

/-- One iteration of strategy B: for a long numeric label, fetch all
`agent-identity` beads and find one with the token as a substring of
some label. -/
def strategyBOne (s : Store) (l : String) : Option String :=
  if isSnowflake l then
    match (s.filter (fun b => b.labels.contains IDENTITY_LABEL)).find?
        (fun b => b.labels.any (fun lb => strContains lb l)) with
    | some b => if b.id = "" then none else some b.id
    | none => none
  else none

/-- Strategy B (substring fallback for channel ids). -/
def strategyB (s : Store) (searchLabels : List String) : Option String :=
  searchLabels.findSome? (strategyBOne s)

/-- The resolver `findIdentityBead`: strategy A, then strategy B, else null. -/
def findIdentityBead (s : Store) (searchLabels : List String) : Option String :=
  match strategyA s searchLabels with
  | some bid => some bid
  | none => strategyB s searchLabels

-- ─── IdentityResolver: creation (v1 lines 410-431, 615-631) ───────

/-- The identity bead `createIdentityBead` builds: created by
`bd q "Agent Identity: <label>" --labels agent-identity,<label>,session-context`
followed by a description update. -/
def mkIdentityBead (bid lbl : String) : Bead :=
  { id := bid
    title := "Agent Identity: " ++ lbl
    description := "Identity bead for \x27" ++ lbl ++
      "\x27. Auto-created by bd-identity plugin."
    labels := [IDENTITY_LABEL, lbl, "session-context"]
    parent := none
    status := Status.opened
    comments := [] }

/-- The `createIdentityBead` function: create the bead, return its id (null when the
store handed back an empty id). `freshId` is the id the external store
generates. -/
def createIdentityBead (s : Store) (freshId lbl : String) : Store × Option String :=
  (s ++ [mkIdentityBead freshId lbl], if freshId = "" then none else some freshId)

/-- The creation-label priority of the `init` command:
first label starting with `discord-`, else first label that is not
purely numeric (JS falsy fallthrough on an empty find result kept),
else the agentId, else `"unknown"`. -/
def initCreateLabel (labels : List String) (agentId : String) : String :=
  jsOr (jsOrOpt (labels.find? (fun l => jsStartsWith l "discord-")) "")
    (jsOr (jsOrOpt (labels.find? (fun l => !isNumericStr l)) "")
      (jsOr agentId "unknown"))

/-- Result reported by the `init` command. -/
inductive InitResult where
  | already (bid : String)
  | created (bid lbl : String)
  | failed
deriving DecidableEq, Repr

/-- The `init` command of `agent_self` (v1 lines 615-631): resolve via
`findIdentityBead`; when found report "already exists", otherwise
create with the priority label. -/
def initCmd (s : Store) (labels : List String) (agentId freshId : String) :
    Store × InitResult :=
  match findIdentityBead s labels with
  | some bid => (s, InitResult.already bid)
  | none =>
    let cl := initCreateLabel labels agentId
    let (s2, created) := createIdentityBead s freshId cl
    match created with
    | some nid => (s2, InitResult.created nid cl)
    | none => (s2, InitResult.failed)

/-- The v1 `agent_self` tool context default (line 443):
`ctx.agentId || "main"`. -/
def agentSelfAgentId (ctxAgentId : Option String) : String :=
  jsOr ((ctxAgentId).getD "") "main"

-- ─── Tool results and side-effect events ──────────────────────────

/-- A tool call outcome: `textResult` or `errorResult`. -/
inductive ToolResult where
  | ok (msg : String)
  | err (msg : String)
deriving DecidableEq, Repr

/-- Is the outcome a rejection? -/
def ToolResult.isErr : ToolResult → Bool
  | ToolResult.ok _ => false
  | ToolResult.err _ => true

/-- Ordered side effects a lifecycle command performs besides the store
update: a daily-memory append, a best-effort search-index update, and
the store-level `bd close` call. -/
inductive Event where
  | appendDaily (agentId text : String)
  | indexDaily (agentId : String)
  | bdClose (bid : String)
deriving DecidableEq, Repr

/-- The daily-memory texts appended in a trace, in order. -/
def appendTexts (events : List Event) : List String :=
  events.filterMap (fun e => match e with
    | Event.appendDaily _ t => some t
    | _ => none)

/-- Positions of store-level close calls in a trace. -/
def isBdCloseEv : Event → Bool
  | Event.bdClose _ => true
  | _ => false

-- ─── AccessGuard: isIdentityBead (v1 lines 57-65, v2 1532-1539) ───

/-- The guard `isIdentityBead` over the outcome of the external
`bd label list <id>` call: substring test on success, `false` when the
call threw (the catch branch). -/
def isIdentityBead (callResult : Except String String) : Bool :=
  match callResult with
  | Except.ok result => strContains result IDENTITY_LABEL
  | Except.error _ => false

/-- The external environment the `bd_project` tool consults: the
behaviour of `bd label list <id>` per bead id (`Except.error` models a
thrown/failed call). -/
structure BdEnv where
  labelList : String → Except String String

/-- The normal environment over a store: `bd label list` renders the
bead's labels (modelled as one label per line) and fails on a missing
bead. -/
def stdEnv (s : Store) : BdEnv :=
  { labelList := fun bid =>
      match lookup s bid with
      | some b => Except.ok (joinNl b.labels)
      | none => Except.error "bd failed" }

/-- An environment in which every `bd label list` call throws. -/
def downEnv (msg : String) : BdEnv :=
  { labelList := fun _ => Except.error msg }

-- ─── The bd_project tool (v1 lines 1246-1387, v2 1856-1975) ───────

/-- A `bd_project` invocation.  A missing `id`/`text` parameter is
modelled as `""` (falsy in the JS checks); `createCmd` carries the id
the external store generates for the new bead. -/
inductive ProjectOp where
  | showCmd (bid : String)
  | listCmd
  | readyCmd
  | queryCmd (text : String)
  | commentCmd (bid text : String)
  | editCmd (bid text : String)
  | createCmd (text freshId : String)
  | closeCmd (bid : String)
  | labelCmd (bid text : String)
  | syncCmd
deriving DecidableEq, Repr

/-- The target bead id of an op, when the command takes one. -/
def ProjectOp.opId : ProjectOp → Option String
  | ProjectOp.showCmd bid => some bid
  | ProjectOp.commentCmd bid _ => some bid
  | ProjectOp.editCmd bid _ => some bid
  | ProjectOp.closeCmd bid => some bid
  | ProjectOp.labelCmd bid _ => some bid
  | _ => none

/-- Is the command in the `writeCommands` list
`["comment", "edit", "close", "label"]`? -/
def ProjectOp.isWriteCmd : ProjectOp → Bool
  | ProjectOp.commentCmd _ _ => true
  | ProjectOp.editCmd _ _ => true
  | ProjectOp.closeCmd _ => true
  | ProjectOp.labelCmd _ _ => true
  | _ => false

/-- Read-only rendering used by the list-style commands (output shape
is irrelevant to every claim). -/
def renderList (s : Store) : String :=
  joinNl (s.map (fun b => b.id ++ " " ++ b.title))

/-- The switch body of `bd_project`'s `execute` (after the
write-command identity guard).  Mutating `bd` calls are modelled as
succeeding store updates. -/
def projectExecCmd (env : BdEnv) (s : Store) (op : ProjectOp) : Store × ToolResult :=
  match op with
  | ProjectOp.showCmd bid =>
    if bid = "" then (s, ToolResult.err "\x27id\x27 parameter required.")
    else (s, ToolResult.ok (renderList (s.filter (fun b => b.id = bid))))
  | ProjectOp.listCmd => (s, ToolResult.ok (renderList s))
  | ProjectOp.readyCmd => (s, ToolResult.ok (renderList s))
  | ProjectOp.queryCmd text =>
    if text = "" then (s, ToolResult.err "\x27text\x27 parameter required for query.")
    else (s, ToolResult.ok (renderList s))
  | ProjectOp.commentCmd bid text =>
    if bid = "" then (s, ToolResult.err "\x27id\x27 parameter required.")
    else if text = "" then (s, ToolResult.err "\x27text\x27 parameter required.")
    else (addCommentStore s bid text, ToolResult.ok ("Comment added to " ++ bid))
  | ProjectOp.editCmd bid text =>
    if bid = "" then (s, ToolResult.err "\x27id\x27 parameter required.")
    else if text = "" then (s, ToolResult.err "\x27text\x27 parameter required.")
    else (setDescStore s bid text, ToolResult.ok ("Description updated on " ++ bid))
  | ProjectOp.createCmd text freshId =>
    if text = "" then (s, ToolResult.err "\x27text\x27 parameter required (bead title).")
    else (createBeadStore s freshId text [], ToolResult.ok ("Created bead: " ++ freshId))
  | ProjectOp.closeCmd bid =>
    if bid = "" then (s, ToolResult.err "\x27id\x27 parameter required.")
    else if isIdentityBead (env.labelList bid) then
      (s, ToolResult.err "Cannot close an identity bead.")
    else (closeStore s bid, ToolResult.ok ("Closed " ++ bid))
  | ProjectOp.labelCmd bid text =>
    if bid = "" then (s, ToolResult.err "\x27id\x27 parameter required.")
    else if text = "" then (s, ToolResult.err "\x27text\x27 parameter required (label name).")
    else if jsTrim text = IDENTITY_LABEL then
      (s, ToolResult.err ("Cannot add \x27" ++ IDENTITY_LABEL ++
        "\x27 label. Identity beads are managed by the platform."))
    else (addLabelStore s bid text, ToolResult.ok ("Label \x27" ++ text ++ "\x27 added to " ++ bid))
  | ProjectOp.syncCmd => (s, ToolResult.ok "Synced")

/-- The write-command identity-protection guard condition
(v1 lines 1305-1313): a write command with a truthy id whose target the
`bd label list` call marks as an identity bead. -/
def projectBlocked (env : BdEnv) (op : ProjectOp) : Bool :=
  op.isWriteCmd &&
    (match op.opId with
     | some bid => bid ≠ "" && isIdentityBead (env.labelList bid)
     | none => false)

/-- The `bd_project` `execute` body: the write-command identity-protection guard,
then the command switch. -/
def projectExec (env : BdEnv) (s : Store) (op : ProjectOp) : Store × ToolResult :=
  if projectBlocked env op then
    (s, ToolResult.err ("Bead \x27" ++ (op.opId.getD "") ++
      "\x27 is an agent identity bead. Use bd_identity to manage your own identity bead."))
  else projectExecCmd env s op

/-- A sequence of `bd_project` invocations.  `envOf` gives the external
`bd label list` behaviour seen at each step (normally `stdEnv`, but any
behaviour — including failing calls — is allowed, so theorems over
`runProject` cover infrastructure failure too). -/
def runProject (envOf : Store → BdEnv) (s : Store) (ops : List ProjectOp) : Store :=
  ops.foldl (fun st op => (projectExec (envOf st) st op).1) s

-- ─── TaskTopicLifecycle: topic ownership and close ────────────────

/-- The topic ownership test of `topic_comment`/`topic_show`/
`topic_close`: the label set must contain both `topic` and the caller's
agentId. -/
def topicOwnerOk (b : Bead) (agentId : String) : Bool :=
  b.labels.contains "topic" && b.labels.contains agentId

/-- The `topic_comment` command (v1 lines 883-899).  `callerId`/`text` of `""`
model missing parameters; a missing bead models the thrown `bd show`. -/
def topicComment (s : Store) (agentId bid text : String) : Store × ToolResult :=
  if bid = "" then (s, ToolResult.err "\x27id\x27 parameter required for topic_comment.")
  else if text = "" then (s, ToolResult.err "\x27text\x27 parameter required for topic_comment.")
  else
    match lookup s bid with
    | none => (s, ToolResult.err "Cannot verify topic: bd failed")
    | some b =>
      if !topicOwnerOk b agentId then
        (s, ToolResult.err ("Topic " ++ bid ++ " does not belong to you."))
      else (addCommentStore s bid text, ToolResult.ok ("Comment added to " ++ bid))

/-- The `topic_close` command (v1 lines 932-951): ownership check, closure note
appended to the daily memory, index update, then the store-level close. -/
def topicClose (s : Store) (callerBead : Option String) (agentId bid : String) :
    Store × List Event × ToolResult :=
  if bid = "" then (s, [], ToolResult.err "\x27id\x27 parameter required for topic_close.")
  else
    match callerBead with
    | none => (s, [], ToolResult.err "No identity bead found. Run \x27init\x27 first.")
    | some _ =>
      match lookup s bid with
      | none => (s, [], ToolResult.err "Cannot verify topic: bd failed")
      | some b =>
        if !topicOwnerOk b agentId then
          (s, [], ToolResult.err ("Topic " ++ bid ++ " does not belong to you."))
        else
          let closureNote := "## Topic closed: " ++ (jsOr b.title bid) ++ " (" ++ bid ++ ")"
          (closeStore s bid,
           [Event.appendDaily agentId closureNote, Event.indexDaily agentId, Event.bdClose bid],
           ToolResult.ok ("Topic " ++ bid ++ " closed and consolidated to daily notes."))

-- ─── TaskTopicLifecycle: task commands ────────────────────────────

/-- The `task_comment` command (v1 lines 1166-1181): permitted only when the task's
`parent` equals the caller's own identity bead id. -/
def taskComment (s : Store) (callerBead : Option String) (bid text : String) :
    Store × ToolResult :=
  if bid = "" then (s, ToolResult.err "\x27id\x27 parameter required.")
  else if text = "" then (s, ToolResult.err "\x27text\x27 parameter required.")
  else
    match callerBead with
    | none => (s, ToolResult.err "No identity bead found. Run \x27init\x27 first.")
    | some beadId =>
      match lookup s bid with
      | none => (s, ToolResult.err "Cannot verify task: bd failed")
      | some b =>
        if b.parent ≠ some beadId then
          (s, ToolResult.err ("Task " ++ bid ++ " is not assigned to you."))
        else (addCommentStore s bid text, ToolResult.ok ("Comment added to " ++ bid))

/-- The `task_close` command (v1 lines 1215-1233): ownership via `parent`, closure
note appended to the daily memory, index update, then the close. -/
def taskClose (s : Store) (callerBead : Option String) (agentId bid : String) :
    Store × List Event × ToolResult :=
  if bid = "" then (s, [], ToolResult.err "\x27id\x27 parameter required for task_close.")
  else
    match callerBead with
    | none => (s, [], ToolResult.err "No identity bead found. Run \x27init\x27 first.")
    | some beadId =>
      match lookup s bid with
      | none => (s, [], ToolResult.err "Cannot verify task: bd failed")
      | some b =>
        if b.parent ≠ some beadId then
          (s, [], ToolResult.err ("Task " ++ bid ++ " is not assigned to you."))
        else
          let taskClosureNote := "## Task closed: " ++ (jsOr b.title bid) ++ " (" ++ bid ++ ")"
          (closeStore s bid,
           [Event.appendDaily agentId taskClosureNote, Event.indexDaily agentId, Event.bdClose bid],
           ToolResult.ok ("Task " ++ bid ++ " closed."))

/-- The spec-reference heuristic of `task_promote` (v1 lines 1140-1142):
case-insensitive substring test on description and title. -/
def hasSpecRef (b : Bead) : Bool :=
  strContains (jsToLower b.description) "spec" ||
    strContains (jsToLower b.description) "specs/" ||
    strContains (jsToLower b.title) "spec"

/-- The `task_promote` command (v1 lines 1119-1164).  `text = ""` models a missing
`specRefText`. -/
def taskPromote (s : Store) (agentId bid text : String) : Store × ToolResult :=
  if bid = "" then (s, ToolResult.err "\x27id\x27 parameter required for task_promote.")
  else if agentId ≠ "main" then
    (s, ToolResult.err ("Only the main agent can promote tasks. You are \x27" ++ agentId ++ "\x27."))
  else
    match lookup s bid with
    | none => (s, ToolResult.err "Failed to promote task: bd failed")
    | some b =>
      if !b.labels.contains "task" then
        (s, ToolResult.err (bid ++ " is not a task bead."))
      else if !b.labels.contains "backlog" then
        (s, ToolResult.err (bid ++ " is not in backlog."))
      else if b.labels.contains "ready" then
        (s, ToolResult.err (bid ++ " is already ready."))
      else
        if !(b.labels.contains "trivial") && !hasSpecRef b && text = "" then
          (s, ToolResult.err ("Task " ++ bid ++ " needs a spec reference before promotion."))
        else
          (addLabelStore
            (removeLabelStore
              (if !(b.labels.contains "trivial") && text ≠ "" then
                setDescStore s bid
                  (if b.description = "" then "Spec: " ++ text
                   else b.description ++ "\n\nSpec: " ++ text)
               else s)
              bid "backlog")
            bid "ready",
           ToolResult.ok ("Task " ++ bid ++ " promoted to ready."))

-- ─── task_create hashtag parsing (v1 lines 955-987) ───────────────

/-- The regex class `[\w-]`. -/
def isWordChar (c : Char) : Bool :=
  c.isAlphanum || c = '_' || c = '-'

/-- State of the hashtag scanner: whether the previous character was
whitespace (the `\s+` that must precede `#`), the reversed characters
of the tag currently being read (`none` when not inside `#tag`), and
the captures completed so far. -/
structure ScanSt where
  sawSpace : Bool
  tag : Option (List Char)
  tags : List String
deriving DecidableEq, Repr

/-- Complete a capture; the regex requires at least one `[\w-]` char,
so an empty candidate is discarded. -/
def flushTag (tags : List String) (t : List Char) : List String :=
  if t.isEmpty then tags else tags ++ [String.mk t.reverse]

/-- One character of `/\s+#([\w-]+)/g` scanning (the match attempt
resumes at the terminating character, which is reprocessed fresh). -/
def scanChar (st : ScanSt) (c : Char) : ScanSt :=
  match st.tag with
  | some t =>
    if isWordChar c then { st with tag := some (c :: t) }
    else { sawSpace := c.isWhitespace, tag := none, tags := flushTag st.tags t }
  | none =>
    if c.isWhitespace then { st with sawSpace := true }
    else if st.sawSpace && c = '#' then
      { sawSpace := false, tag := some [], tags := st.tags }
    else { st with sawSpace := false }

/-- All captures of the global regex `/\s+#([\w-]+)/g`, left to right:
the `#hashtag` labels extracted from the creation text. -/
def scanHashtags (text : String) : List String :=
  let st := text.data.foldl scanChar { sawSpace := false, tag := none, tags := [] }
  match st.tag with
  | some t => flushTag st.tags t
  | none => st.tags

/-- State of the hashtag stripper: emitted output, the pending
whitespace run, whether a `#` immediately followed it, and the reversed
tag characters read so far. -/
structure StripSt where
  out : List Char
  ws : List Char
  hash : Bool
  tag : List Char
deriving DecidableEq, Repr

/-- Process a character outside a `\s+#` attempt: grow the whitespace
run, open an attempt on `#` after whitespace, or emit. -/
def stripBase (st : StripSt) (c : Char) : StripSt :=
  if c.isWhitespace then { st with ws := st.ws ++ [c] }
  else if c = '#' && !st.ws.isEmpty then { st with hash := true, tag := [] }
  else { out := st.out ++ st.ws ++ [c], ws := [], hash := false, tag := [] }

/-- One character of `text.replace(/\s+#[\w-]+/g, "")`: on a failed
attempt the pending run and `#` are kept, on a completed match they are
dropped; the terminating character is reprocessed fresh. -/
def stripChar (st : StripSt) (c : Char) : StripSt :=
  if st.hash then
    if isWordChar c then { st with tag := c :: st.tag }
    else if st.tag.isEmpty then
      stripBase { st with out := st.out ++ st.ws ++ ['#'], ws := [], hash := false, tag := [] } c
    else stripBase { st with ws := [], hash := false, tag := [] } c
  else stripBase st c

/-- Model of `text.replace(/\s+#[\w-]+/g, "")`: drop every hashtag match (a
whitespace run immediately followed by `#` and at least one `[\w-]`
character; a run not followed by a full match is kept verbatim). -/
def stripHashtags (text : String) : String :=
  let st := text.data.foldl stripChar { out := [], ws := [], hash := false, tag := [] }
  if st.hash then
    if st.tag.isEmpty then String.mk (st.out ++ st.ws ++ ['#'])
    else String.mk st.out
  else String.mk (st.out ++ st.ws)

/-- The label list of the bead `task_create` creates: `task` plus the
hashtags, with `backlog` appended unless `#ready` or `#backlog` was
given. -/
def taskCreateLabels (text : String) : List String :=
  "task" ::
    (if !(scanHashtags text).contains "ready" && !(scanHashtags text).contains "backlog"
     then scanHashtags text ++ ["backlog"]
     else scanHashtags text)

/-- The title of the created task: hashtags stripped and trimmed when
any hashtag was found, the raw text otherwise. -/
def taskCreateTitle (text : String) : String :=
  if scanHashtags text ≠ [] then jsTrim (stripHashtags text)
  else text

/-- The `task_create` command (v1 lines 955-987). -/
def taskCreate (s : Store) (text freshId : String) : Store × ToolResult :=
  if text = "" then (s, ToolResult.err "\x27text\x27 parameter required for task_create.")
  else
    let hasReady := (scanHashtags text).contains "ready"
    let hasTrivial := (scanHashtags text).contains "trivial"
    let status :=
      if hasReady then "ready"
      else if hasTrivial then "backlog (trivial)" else "backlog"
    (createBeadStore s freshId (taskCreateTitle text) (taskCreateLabels text),
     ToolResult.ok ("Created task: " ++ freshId ++ " [" ++ status ++ "]"))

-- ─── Generic store lemmas ─────────────────────────────────────────

/-- Membership in an updated store: every bead is an original bead,
possibly rewritten by the update function. -/
theorem mem_updateBead (s : Store) (tid : String) (f : Bead → Bead) (b' : Bead)
    (h : b' ∈ updateBead s tid f) :
    ∃ b ∈ s, b' = b ∨ (b.id = tid ∧ b' = f b) := by
  unfold updateBead at h
  obtain ⟨b, hb, hbe⟩ := List.mem_map.mp h
  refine ⟨b, hb, ?_⟩
  by_cases hc : b.id = tid
  · right; exact ⟨hc, by rw [if_pos hc] at hbe; exact hbe.symm⟩
  · left; rw [if_neg hc] at hbe; exact hbe.symm

/-- A per-record invariant: no bead with the given id carries the
reserved identity label. -/
def NoIdentityAt (s : Store) (bid : String) : Prop :=
  ∀ b ∈ s, b.id = bid → IDENTITY_LABEL ∉ b.labels

instance (s : Store) (bid : String) : Decidable (NoIdentityAt s bid) := by
  unfold NoIdentityAt; infer_instance

/-- Updates that keep every bead's id and labels preserve the
invariant. -/
theorem noIdentityAt_updateBead (s : Store) (tid bid : String) (f : Bead → Bead)
    (hid : ∀ b, (f b).id = b.id) (hlab : ∀ b, (f b).labels = b.labels)
    (h : NoIdentityAt s bid) : NoIdentityAt (updateBead s tid f) bid := by
  intro b' hb' hbid
  obtain ⟨b, hb, hcase⟩ := mem_updateBead s tid f b' hb'
  rcases hcase with h1 | ⟨h2, h3⟩
  · subst h1; exact h _ hb hbid
  · subst h3
    rw [hlab]
    exact h b hb (by rw [hid] at hbid; exact hbid)

/-- Adding via `addLabelStore` with a label other than `agent-identity` preserves
the invariant. -/
theorem noIdentityAt_addLabel (s : Store) (tid bid l : String)
    (hl : l ≠ IDENTITY_LABEL) (h : NoIdentityAt s bid) :
    NoIdentityAt (addLabelStore s tid l) bid := by
  intro b' hb' hbid
  obtain ⟨b, hb, hcase⟩ := mem_updateBead s tid _ b' hb'
  rcases hcase with h1 | ⟨h2, h3⟩
  · subst h1; exact h _ hb hbid
  · subst h3
    intro hmem
    simp only at hmem hbid
    have hbm := h b hb hbid
    by_cases hc : b.labels.contains l
    · rw [if_pos hc] at hmem; exact hbm hmem
    · rw [if_neg hc] at hmem
      rcases List.mem_append.mp hmem with hx | hx
      · exact hbm hx
      · exact hl ((List.mem_singleton.mp hx).symm)

/-- Creation via `createBeadStore` creates label-less beads, preserving the
invariant. -/
theorem noIdentityAt_createBead (s : Store) (fid title bid : String)
    (h : NoIdentityAt s bid) : NoIdentityAt (createBeadStore s fid title []) bid := by
  intro b' hb' hbid
  rcases List.mem_append.mp hb' with hx | hx
  · exact h b' hx hbid
  · rw [List.mem_singleton.mp hx]
    simp [mkBead]

-- ─── C1: the project path can never attach the identity label ─────

/-- The literal `"agent-identity"` survives trimming. -/
theorem identity_label_trim : jsTrim IDENTITY_LABEL = IDENTITY_LABEL := by decide

/-- One `bd_project` call preserves the no-identity-label invariant. -/
theorem projectExec_noIdentityAt (env : BdEnv) (s : Store) (op : ProjectOp)
    (bid : String) (h : NoIdentityAt s bid) :
    NoIdentityAt (projectExec env s op).1 bid := by
  unfold projectExec
  split
  · exact h
  · cases op with
    | showCmd tid => simp only [projectExecCmd]; split <;> exact h
    | listCmd => exact h
    | readyCmd => exact h
    | queryCmd text => simp only [projectExecCmd]; split <;> exact h
    | commentCmd tid text =>
      simp only [projectExecCmd]
      split
      · exact h
      · split
        · exact h
        · exact noIdentityAt_updateBead s tid bid _ (fun _ => rfl) (fun _ => rfl) h
    | editCmd tid text =>
      simp only [projectExecCmd]
      split
      · exact h
      · split
        · exact h
        · exact noIdentityAt_updateBead s tid bid _ (fun _ => rfl) (fun _ => rfl) h
    | createCmd text fid =>
      simp only [projectExecCmd]
      split
      · exact h
      · exact noIdentityAt_createBead s fid text bid h
    | closeCmd tid =>
      simp only [projectExecCmd]
      split
      · exact h
      · split
        · exact h
        · exact noIdentityAt_updateBead s tid bid _ (fun _ => rfl) (fun _ => rfl) h
    | labelCmd tid text =>
      simp only [projectExecCmd]
      split
      · exact h
      · split
        · exact h
        · split
          · exact h
          · rename_i htrim
            refine noIdentityAt_addLabel s tid bid text ?_ h
            intro he
            exact htrim (by rw [he, identity_label_trim])
    | syncCmd => exact h

/-- Any sequence of `bd_project` calls preserves the invariant. -/
theorem runProject_noIdentityAt (envOf : Store → BdEnv) (ops : List ProjectOp) :
    ∀ s bid, NoIdentityAt s bid → NoIdentityAt (runProject envOf s ops) bid := by
  induction ops with
  | nil => intro s bid h; exact h
  | cons op rest ih =>
    intro s bid h
    have h1 := projectExec_noIdentityAt (envOf s) s op bid h
    simpa [runProject, List.foldl] using
      ih (projectExec (envOf s) s op).1 bid h1

/-- C1: through the general project-management tool (`bd_project`
commands create, edit, comment, label, close, ...), a record that does
not carry the reserved `agent-identity` label never acquires it, under
every operation sequence and every external `bd label list` behaviour;
in particular the `label` command rejects a request whose label text is
the reserved label and leaves the store unchanged. -/
theorem c1_project_never_acquires_identity_label
    (envOf : Store → BdEnv) (ops : List ProjectOp) (s : Store) (bid : String)
    (h : NoIdentityAt s bid) :
    NoIdentityAt (runProject envOf s ops) bid ∧
    (∀ env st tid,
      (projectExec env st (ProjectOp.labelCmd tid IDENTITY_LABEL)).1 = st ∧
      ((projectExec env st (ProjectOp.labelCmd tid IDENTITY_LABEL)).2).isErr = true) := by
  refine ⟨runProject_noIdentityAt envOf ops s bid h, ?_⟩
  intro env st tid
  unfold projectExec
  split
  · exact ⟨rfl, rfl⟩
  · simp only [projectExecCmd]
    split
    · exact ⟨rfl, rfl⟩
    · split
      · exact ⟨rfl, rfl⟩
      · split
        · exact ⟨rfl, rfl⟩
        · rename_i hno
          exact absurd identity_label_trim hno

/-- Witness for C1: a concrete record without the reserved label, a
concrete operation sequence that even attempts to attach it. -/
theorem c1_project_never_acquires_identity_label_witness :
    NoIdentityAt
      (runProject stdEnv [mkBead "p1" "Proj" []]
        [ProjectOp.labelCmd "p1" "agent-identity",
         ProjectOp.labelCmd "p1" "urgent",
         ProjectOp.commentCmd "p1" "note",
         ProjectOp.createCmd "more work" "p2",
         ProjectOp.closeCmd "p1"]) "p1" :=
  (c1_project_never_acquires_identity_label stdEnv
    [ProjectOp.labelCmd "p1" "agent-identity",
     ProjectOp.labelCmd "p1" "urgent",
     ProjectOp.commentCmd "p1" "note",
     ProjectOp.createCmd "more work" "p2",
     ProjectOp.closeCmd "p1"]
    [mkBead "p1" "Proj" []] "p1" (by decide)).1

/-- C4: when the underlying `bd label list` call throws,
`isIdentityBead` returns false (the catch branch), so the `bd_project`
write guard treats the target as a non-identity record and the write
path proceeds and mutates the store. -/
theorem c4_identity_guard_fails_open (s : Store) (env : BdEnv) (msg bid text : String)
    (henv : ∀ tid, env.labelList tid = Except.error msg)
    (hbid : bid ≠ "") (htext : text ≠ "") (htrim : jsTrim text ≠ IDENTITY_LABEL) :
    isIdentityBead (env.labelList bid) = false ∧
    (∀ op : ProjectOp, projectBlocked env op = false) ∧
    projectExec env s (ProjectOp.commentCmd bid text)
      = (addCommentStore s bid text, ToolResult.ok ("Comment added to " ++ bid)) ∧
    projectExec env s (ProjectOp.editCmd bid text)
      = (setDescStore s bid text, ToolResult.ok ("Description updated on " ++ bid)) ∧
    projectExec env s (ProjectOp.closeCmd bid)
      = (closeStore s bid, ToolResult.ok ("Closed " ++ bid)) ∧
    projectExec env s (ProjectOp.labelCmd bid text)
      = (addLabelStore s bid text,
         ToolResult.ok ("Label \x27" ++ text ++ "\x27 added to " ++ bid)) := by
  have hfalse : ∀ tid, isIdentityBead (env.labelList tid) = false := by
    intro tid; rw [henv tid]; rfl
  have hblk : ∀ op : ProjectOp, projectBlocked env op = false := by
    intro op
    cases op <;> simp [projectBlocked, ProjectOp.isWriteCmd, ProjectOp.opId, hfalse]
  refine ⟨hfalse bid, hblk, ?_, ?_, ?_, ?_⟩ <;>
    (unfold projectExec) <;> rw [hblk] <;> simp only [projectExecCmd] <;>
    simp [hbid, htext, htrim, hfalse]

/-- Witness for C4: a failing environment over a concrete store. -/
theorem c4_identity_guard_fails_open_witness :
    isIdentityBead ((downEnv "bd timed out").labelList "b1") = false ∧
    (∀ op : ProjectOp, projectBlocked (downEnv "bd timed out") op = false) ∧
    projectExec (downEnv "bd timed out") [mkBead "b1" "T" ["task"]]
        (ProjectOp.commentCmd "b1" "urgent")
      = (addCommentStore [mkBead "b1" "T" ["task"]] "b1" "urgent",
         ToolResult.ok ("Comment added to " ++ "b1")) ∧
    projectExec (downEnv "bd timed out") [mkBead "b1" "T" ["task"]]
        (ProjectOp.editCmd "b1" "urgent")
      = (setDescStore [mkBead "b1" "T" ["task"]] "b1" "urgent",
         ToolResult.ok ("Description updated on " ++ "b1")) ∧
    projectExec (downEnv "bd timed out") [mkBead "b1" "T" ["task"]]
        (ProjectOp.closeCmd "b1")
      = (closeStore [mkBead "b1" "T" ["task"]] "b1",
         ToolResult.ok ("Closed " ++ "b1")) ∧
    projectExec (downEnv "bd timed out") [mkBead "b1" "T" ["task"]]
        (ProjectOp.labelCmd "b1" "urgent")
      = (addLabelStore [mkBead "b1" "T" ["task"]] "b1" "urgent",
         ToolResult.ok ("Label \x27" ++ "urgent" ++ "\x27 added to " ++ "b1")) :=
  c4_identity_guard_fails_open [mkBead "b1" "T" ["task"]] (downEnv "bd timed out")
    "bd timed out" "b1" "urgent" (fun _ => rfl)
    (by decide) (by decide) (by decide)

-- ─── C2: ownership checks reject and leave the store unchanged ────

/-- C2: a close or comment on a topic whose label set does not contain
both `topic` and the caller's agentId, or on a task whose `parent` does
not equal the caller's resolved identity id, is rejected and performs
no store mutation — both when the record exists with mismatched
ownership fields and when it does not exist at all. -/
theorem c2_ownership_mismatch_rejected
    (s : Store) (agentId beadId bid text : String)
    (hid : bid ≠ "") (htext : text ≠ "") :
    (lookup s bid = none →
      topicComment s agentId bid text
        = (s, ToolResult.err "Cannot verify topic: bd failed") ∧
      topicClose s (some beadId) agentId bid
        = (s, [], ToolResult.err "Cannot verify topic: bd failed") ∧
      taskComment s (some beadId) bid text
        = (s, ToolResult.err "Cannot verify task: bd failed") ∧
      taskClose s (some beadId) agentId bid
        = (s, [], ToolResult.err "Cannot verify task: bd failed")) ∧
    (∀ b, lookup s bid = some b →
      (¬(b.labels.contains "topic" = true ∧ b.labels.contains agentId = true) →
        topicComment s agentId bid text
          = (s, ToolResult.err ("Topic " ++ bid ++ " does not belong to you.")) ∧
        topicClose s (some beadId) agentId bid
          = (s, [], ToolResult.err ("Topic " ++ bid ++ " does not belong to you."))) ∧
      (b.parent ≠ some beadId →
        taskComment s (some beadId) bid text
          = (s, ToolResult.err ("Task " ++ bid ++ " is not assigned to you.")) ∧
        taskClose s (some beadId) agentId bid
          = (s, [], ToolResult.err ("Task " ++ bid ++ " is not assigned to you.")))) := by
  constructor
  · intro hnone
    refine ⟨?_, ?_, ?_, ?_⟩ <;>
      simp [topicComment, topicClose, taskComment, taskClose, hid, htext, hnone]
  · intro b hb
    constructor
    · intro hno
      have hown : topicOwnerOk b agentId = false := by
        cases hc1 : b.labels.contains "topic" <;>
          cases hc2 : b.labels.contains agentId <;>
          simp_all [topicOwnerOk]
      refine ⟨?_, ?_⟩ <;>
        simp [topicComment, topicClose, hid, htext, hb, hown]
    · intro hpar
      refine ⟨?_, ?_⟩ <;>
        simp [taskComment, taskClose, hid, htext, hb, hpar]

/-- Witness for C2: a record labelled `topic` but owned by another
agent (labels lack the caller `alice`, parent is another identity). -/
theorem c2_ownership_mismatch_rejected_witness :
    (topicComment [{ mkBead "x1" "T" ["topic"] with parent := some "idB" }] "alice" "x1" "note"
      = ([{ mkBead "x1" "T" ["topic"] with parent := some "idB" }],
         ToolResult.err ("Topic " ++ "x1" ++ " does not belong to you."))) ∧
    (taskClose [{ mkBead "x1" "T" ["topic"] with parent := some "idB" }] (some "idA") "alice" "x1"
      = ([{ mkBead "x1" "T" ["topic"] with parent := some "idB" }], [],
         ToolResult.err ("Task " ++ "x1" ++ " is not assigned to you."))) := by
  have h := c2_ownership_mismatch_rejected
    [{ mkBead "x1" "T" ["topic"] with parent := some "idB" }]
    "alice" "idA" "x1" "note" (by decide) (by decide)
  have h2 := h.2 { mkBead "x1" "T" ["topic"] with parent := some "idB" } (by decide)
  exact ⟨(h2.1 (by decide)).1, (h2.2 (by decide)).2⟩

-- ─── C3: backlog/ready mutual exclusion ───────────────────────────

/-- Beads carrying the target id in an updated store are images of
original beads with that id. -/
theorem mem_updateBead_of_id (s : Store) (tid : String) (f : Bead → Bead) (b' : Bead)
    (hb' : b' ∈ updateBead s tid f) (hbid : b'.id = tid) :
    ∃ b ∈ s, b.id = tid ∧ b' = f b := by
  obtain ⟨b, hb, hbe⟩ := List.mem_map.mp hb'
  by_cases hc : b.id = tid
  · rw [if_pos hc] at hbe
    exact ⟨b, hb, hc, hbe.symm⟩
  · rw [if_neg hc] at hbe
    subst hbe
    exact absurd hbid hc

/-- Whenever `task_promote` reports success, the resulting store is the
remove-`backlog`-then-add-`ready` update of some intermediate store. -/
theorem taskPromote_ok_shape (s : Store) (agentId bid txt : String) (s' : Store)
    (msg : String) (h : taskPromote s agentId bid txt = (s', ToolResult.ok msg)) :
    ∃ s1, s' = addLabelStore (removeLabelStore s1 bid "backlog") bid "ready" := by
  unfold taskPromote at h
  repeat' split at h
  all_goals first
    | exact ⟨_, ((Prod.mk.injEq _ _ _ _).mp h).1.symm⟩
    | simp at h

/-- Counterexample to C3 as stated: a creation text carrying both the
`#ready` and `#backlog` hashtags yields a task record that carries
`backlog` and `ready` simultaneously. -/
theorem c3_both_hashtags_counterexample :
    "ready" ∈ taskCreateLabels "Fix bug #ready #backlog" ∧
    "backlog" ∈ taskCreateLabels "Fix bug #ready #backlog" ∧
    (taskCreate [] "Fix bug #ready #backlog" "t1").1 =
      [mkBead "t1" "Fix bug" ["task", "ready", "backlog"]] := by
  decide

/-- C3 (amended): `task_create` puts both `backlog` and `ready` on the
record only when the creation text supplies both the `#ready` and
`#backlog` hashtags; for every other hashtag combination the two labels
are mutually exclusive at creation, and after any successful
`task_promote` the target record no longer carries `backlog`, so the
pair is never simultaneously present. -/
theorem c3_backlog_ready_exclusive_amended
    (text : String)
    (h : ¬("ready" ∈ scanHashtags text ∧ "backlog" ∈ scanHashtags text)) :
    ¬("ready" ∈ taskCreateLabels text ∧ "backlog" ∈ taskCreateLabels text) ∧
    (∀ s agentId bid txt s' msg,
      taskPromote s agentId bid txt = (s', ToolResult.ok msg) →
      ∀ b' ∈ s', b'.id = bid → "backlog" ∉ b'.labels) := by
  constructor
  · rintro ⟨hr, hb⟩
    apply h
    unfold taskCreateLabels at hr hb
    by_cases h1 : "ready" ∈ scanHashtags text
    · by_cases h2 : "backlog" ∈ scanHashtags text
      · exact ⟨h1, h2⟩
      · exfalso
        have hc1 : (scanHashtags text).contains "ready" = true := by
          simp [List.contains, h1]
        rw [hc1] at hb
        simp only [Bool.not_true, Bool.false_and, Bool.false_eq_true,
          if_false] at hb
        rcases List.mem_cons.mp hb with hx | hx
        · exact absurd hx (by decide)
        · exact h2 hx
    · exfalso
      have hc1 : (scanHashtags text).contains "ready" = false := by
        simp [List.contains, h1]
      rw [hc1] at hr
      by_cases h2 : "backlog" ∈ scanHashtags text
      · have hc2 : (scanHashtags text).contains "backlog" = true := by
          simp [List.contains, h2]
        rw [hc2] at hr
        simp only [Bool.not_true, Bool.not_false, Bool.true_and,
          Bool.false_eq_true, if_false] at hr
        rcases List.mem_cons.mp hr with hx | hx
        · exact absurd hx (by decide)
        · exact h1 hx
      · have hc2 : (scanHashtags text).contains "backlog" = false := by
          simp [List.contains, h2]
        rw [hc2] at hr
        simp only [Bool.not_false, Bool.true_and, if_true] at hr
        rcases List.mem_cons.mp hr with hx | hx
        · exact absurd hx (by decide)
        · rcases List.mem_append.mp hx with hy | hy
          · exact h1 hy
          · exact absurd (List.mem_singleton.mp hy) (by decide)
  · intro s agentId bid txt s' msg hok b' hb' hbid
    obtain ⟨s1, hs1⟩ := taskPromote_ok_shape s agentId bid txt s' msg hok
    subst hs1
    obtain ⟨b2, hb2, hbid2, hbe2⟩ :=
      mem_updateBead_of_id (removeLabelStore s1 bid "backlog") bid _ b' hb' hbid
    obtain ⟨b1, hb1, hbid1, hbe1⟩ :=
      mem_updateBead_of_id s1 bid _ b2 hb2 hbid2
    subst hbe2
    subst hbe1
    intro hmem
    simp only at hmem
    by_cases hc : ((b1.labels.filter (fun x => x ≠ "backlog")).contains "ready")
    · rw [if_pos hc] at hmem
      have := List.of_mem_filter hmem
      simp at this
    · rw [if_neg hc] at hmem
      rcases List.mem_append.mp hmem with hx | hx
      · have := List.of_mem_filter hx
        simp at this
      · exact absurd (List.mem_singleton.mp hx) (by decide)

/-- Witness for C3 (amended): a creation text with only `#ready`, and a
concrete successful promotion of a backlog task. -/
theorem c3_backlog_ready_exclusive_amended_witness :
    (¬("ready" ∈ taskCreateLabels "t #ready" ∧
       "backlog" ∈ taskCreateLabels "t #ready")) ∧
    (∀ b' ∈ (taskPromote [mkBead "t1" "Do spec work" ["task", "backlog"]]
        "main" "t1" "").1, b'.id = "t1" → "backlog" ∉ b'.labels) := by
  have h := c3_backlog_ready_exclusive_amended "t #ready" (by decide)
  refine ⟨h.1, ?_⟩
  intro b' hb' hbid
  exact h.2 [mkBead "t1" "Do spec work" ["task", "backlog"]] "main" "t1" ""
    (taskPromote [mkBead "t1" "Do spec work" ["task", "backlog"]] "main" "t1" "").1
    "Task t1 promoted to ready." (by decide) b' hb' hbid

-- ─── C5: init is idempotent under sequential calls ────────────────

/-- List `findSome?` returns the common value when every element yields
either nothing or that value and some element yields it. -/
theorem findSome?_all_or (f : String → Option String) (v : String) :
    ∀ L : List String, (∀ l ∈ L, f l = none ∨ f l = some v) →
      (∃ l ∈ L, f l = some v) → L.findSome? f = some v := by
  intro L
  induction L with
  | nil =>
    intro _ hex
    simp at hex
  | cons a L ih =>
    intro hall hex
    cases ha : f a with
    | some w =>
      have hw := hall a (List.mem_cons_self a L)
      rw [ha] at hw
      rcases hw with h1 | h1
      · exact absurd h1 (by simp)
      · rw [List.findSome?_cons_of_isSome _ (by rw [ha]; rfl), ha, h1]
    | none =>
      rw [List.findSome?_cons_of_isNone _ (by rw [ha]; rfl)]
      apply ih
      · intro l hl; exact hall l (List.mem_cons_of_mem a hl)
      · rcases hex with ⟨l, hl, hfl⟩
        rcases List.mem_cons.mp hl with h1 | h1
        · rw [h1] at hfl; rw [hfl] at ha; exact absurd ha (by simp)
        · exact ⟨l, h1, hfl⟩

/-- When strategy A finds nothing over a store of truthy ids, every
per-label query is empty. -/
theorem strategyA_none_filter (s : Store) (L : List String)
    (hids : ∀ b ∈ s, b.id ≠ "") (h : strategyA s L = none) :
    ∀ l ∈ L, s.filter (matchesIdentityAnd l) = [] := by
  intro l hl
  have h1 := List.findSome?_eq_none_iff.mp h l hl
  unfold strategyAOne at h1
  cases hf : s.filter (matchesIdentityAnd l) with
  | nil => rfl
  | cons b t =>
    exfalso
    rw [hf] at h1
    simp only [List.head?_cons] at h1
    have hbmem : b ∈ s.filter (matchesIdentityAnd l) := by
      rw [hf]; exact List.mem_cons_self b t
    have hbs : b ∈ s := List.mem_of_mem_filter hbmem
    rw [if_neg (hids b hbs)] at h1
    exact absurd h1 (by simp)

/-- After creating the identity bead, strategy A resolves it by any
search label the new bead carries. -/
theorem strategyA_after_create (s : Store) (L : List String) (fid cl : String)
    (hids : ∀ b ∈ s, b.id ≠ "") (hA : strategyA s L = none)
    (hfid : fid ≠ "") (hcl : cl ∈ L) :
    strategyA (s ++ [mkIdentityBead fid cl]) L = some fid := by
  apply findSome?_all_or
  · intro l hl
    have hfilter := strategyA_none_filter s L hids hA l hl
    unfold strategyAOne
    rw [List.filter_append, hfilter, List.nil_append]
    by_cases hm : matchesIdentityAnd l (mkIdentityBead fid cl) = true
    · right
      simp only [List.filter_cons_of_pos hm, List.filter_nil, List.head?_cons]
      rw [if_neg (by simpa [mkIdentityBead] using hfid)]
      rfl
    · left
      simp [List.filter_cons_of_neg, hm]
  · refine ⟨cl, hcl, ?_⟩
    have hfilter := strategyA_none_filter s L hids hA cl hcl
    unfold strategyAOne
    rw [List.filter_append, hfilter, List.nil_append]
    have hm : matchesIdentityAnd cl (mkIdentityBead fid cl) = true := by
      simp [matchesIdentityAnd, mkIdentityBead, IDENTITY_LABEL, List.contains]
    simp only [List.filter_cons_of_pos hm, List.filter_nil, List.head?_cons]
    rw [if_neg (by simpa [mkIdentityBead] using hfid)]
    rfl

/-- The creation label the `init` command picks is one of the search
labels, provided the agentId is among them (which `agent_self` always
guarantees by pushing it last). -/
theorem initCreateLabel_mem (labels : List String) (agentId : String)
    (hag : agentId ∈ labels) (hagne : agentId ≠ "") :
    initCreateLabel labels agentId ∈ labels := by
  unfold initCreateLabel jsOrOpt jsOr
  cases hf1 : labels.find? (fun l => jsStartsWith l "discord-") with
  | some l =>
    have hl : l ∈ labels := List.mem_of_find?_eq_some hf1
    have hp := List.find?_some hf1
    have hne : l ≠ "" := by
      intro he; rw [he] at hp; exact absurd hp (by decide)
    simp [hne, hl]
  | none =>
    cases hf2 : labels.find? (fun l => !isNumericStr l) with
    | some l =>
      have hl : l ∈ labels := List.mem_of_find?_eq_some hf2
      by_cases hne : l = ""
      · subst hne
        simp [hagne, hag]
      · simp [hne, hl]
    | none =>
      simp [hagne, hag]

/-- C5: `init` is idempotent under sequential calls — when resolution
finds nothing, the first call creates the identity bead and reports
"created"; a second call with the identical labels resolves to the same
record id, reports "already exists", and leaves the store unchanged
(no second record). -/
theorem c5_init_idempotent (s : Store) (labels : List String) (agentId fid : String)
    (hids : ∀ b ∈ s, b.id ≠ "") (hag : agentId ∈ labels) (hagne : agentId ≠ "")
    (hfid : fid ≠ "") (hnone : findIdentityBead s labels = none) :
    initCmd s labels agentId fid
      = (s ++ [mkIdentityBead fid (initCreateLabel labels agentId)],
         InitResult.created fid (initCreateLabel labels agentId)) ∧
    (∀ fid2, initCmd (s ++ [mkIdentityBead fid (initCreateLabel labels agentId)])
        labels agentId fid2
      = (s ++ [mkIdentityBead fid (initCreateLabel labels agentId)],
         InitResult.already fid)) := by
  have hA : strategyA s labels = none := by
    unfold findIdentityBead at hnone
    cases hs : strategyA s labels with
    | none => rfl
    | some x => rw [hs] at hnone; exact absurd hnone (by simp)
  constructor
  · unfold initCmd
    rw [hnone]
    simp [createIdentityBead, hfid]
  · intro fid2
    have hresolve : findIdentityBead
        (s ++ [mkIdentityBead fid (initCreateLabel labels agentId)]) labels
        = some fid := by
      unfold findIdentityBead
      rw [strategyA_after_create s labels fid (initCreateLabel labels agentId)
        hids hA hfid (initCreateLabel_mem labels agentId hag hagne)]
    unfold initCmd
    rw [hresolve]

/-- Witness for C5: an empty store, the main-session labels. -/
theorem c5_init_idempotent_witness :
    initCmd [] ["main-session", "main"] "main" "b1"
      = ([mkIdentityBead "b1" "main-session"], InitResult.created "b1" "main-session") ∧
    initCmd [mkIdentityBead "b1" "main-session"] ["main-session", "main"] "main" "b2"
      = ([mkIdentityBead "b1" "main-session"], InitResult.already "b1") := by
  have h := c5_init_idempotent [] ["main-session", "main"] "main" "b1"
    (by simp) (by decide) (by decide) (by decide) (by decide)
  have hcl : initCreateLabel ["main-session", "main"] "main" = "main-session" := by
    decide
  constructor
  · simpa [hcl] using h.1
  · simpa [hcl] using h.2 "b2"

-- ─── C6: closure notes on owner close ─────────────────────────────

/-- Counterexample to C6 as stated: the note the code appends carries a
markdown-heading prefix (`## `), so the appended text is
`"## Task closed: <title> (<id>)"`, not the claimed
`"Task closed: <title> (<id>)"`. -/
theorem c6_closure_note_counterexample :
    appendTexts (taskClose [{ mkBead "t1" "Fix" ["task"] with parent := some "me" }]
        (some "me") "alice" "t1").2.1
      = ["## Task closed: Fix (t1)"] ∧
    "Task closed: Fix (t1)" ∉
      appendTexts (taskClose [{ mkBead "t1" "Fix" ["task"] with parent := some "me" }]
        (some "me") "alice" "t1").2.1 := by
  decide

/-- C6 (amended): an owner close appends exactly one closure note to
the owner's daily memory — `"## Task closed: <title> (<id>)"` for tasks
and `"## Topic closed: <title> (<id>)"` for topics, the id substituting
for an empty title — and this append is the first event of the call's
trace, strictly before the store-level close; the record is closed only
in the resulting store. -/
theorem c6_close_appends_note_before_close
    (s : Store) (beadId agentId bid : String) (b : Bead)
    (hbid : bid ≠ "") (hb : lookup s bid = some b) :
    (b.parent = some beadId →
      taskClose s (some beadId) agentId bid
        = (closeStore s bid,
           [Event.appendDaily agentId
              ("## Task closed: " ++ jsOr b.title bid ++ " (" ++ bid ++ ")"),
            Event.indexDaily agentId,
            Event.bdClose bid],
           ToolResult.ok ("Task " ++ bid ++ " closed.")) ∧
      appendTexts (taskClose s (some beadId) agentId bid).2.1
        = ["## Task closed: " ++ jsOr b.title bid ++ " (" ++ bid ++ ")"]) ∧
    (topicOwnerOk b agentId = true →
      topicClose s (some beadId) agentId bid
        = (closeStore s bid,
           [Event.appendDaily agentId
              ("## Topic closed: " ++ jsOr b.title bid ++ " (" ++ bid ++ ")"),
            Event.indexDaily agentId,
            Event.bdClose bid],
           ToolResult.ok ("Topic " ++ bid ++ " closed and consolidated to daily notes.")) ∧
      appendTexts (topicClose s (some beadId) agentId bid).2.1
        = ["## Topic closed: " ++ jsOr b.title bid ++ " (" ++ bid ++ ")"]) := by
  constructor
  · intro hpar
    have he : taskClose s (some beadId) agentId bid
        = (closeStore s bid,
           [Event.appendDaily agentId
              ("## Task closed: " ++ jsOr b.title bid ++ " (" ++ bid ++ ")"),
            Event.indexDaily agentId,
            Event.bdClose bid],
           ToolResult.ok ("Task " ++ bid ++ " closed.")) := by
      unfold taskClose
      simp [hbid, hb, hpar]
    exact ⟨he, by rw [he]; rfl⟩
  · intro hown
    have he : topicClose s (some beadId) agentId bid
        = (closeStore s bid,
           [Event.appendDaily agentId
              ("## Topic closed: " ++ jsOr b.title bid ++ " (" ++ bid ++ ")"),
            Event.indexDaily agentId,
            Event.bdClose bid],
           ToolResult.ok ("Topic " ++ bid ++ " closed and consolidated to daily notes.")) := by
      unfold topicClose
      simp [hbid, hb, hown]
    exact ⟨he, by rw [he]; rfl⟩

/-- Witness for C6 (amended): a task and a topic owned by the caller. -/
theorem c6_close_appends_note_before_close_witness :
    taskClose [{ mkBead "t1" "Fix" ["task"] with parent := some "me" }]
        (some "me") "alice" "t1"
      = (closeStore [{ mkBead "t1" "Fix" ["task"] with parent := some "me" }] "t1",
         [Event.appendDaily "alice" ("## Task closed: " ++ jsOr "Fix" "t1" ++ " (" ++ "t1" ++ ")"),
          Event.indexDaily "alice",
          Event.bdClose "t1"],
         ToolResult.ok ("Task " ++ "t1" ++ " closed.")) :=
  ((c6_close_appends_note_before_close
      [{ mkBead "t1" "Fix" ["task"] with parent := some "me" }]
      "me" "alice" "t1" { mkBead "t1" "Fix" ["task"] with parent := some "me" }
      (by decide) (by decide)).1 (by decide)).1

-- ─── C7: the promote spec-reference gate ──────────────────────────

/-- A string contains any suffix appended to it. -/
theorem strContains_append_right (a t : String) : strContains (a ++ t) t = true := by
  unfold strContains
  rw [decide_eq_true_eq, String.data_append]
  exact (List.suffix_append a.data t.data).isInfix

/-- Behaviour of `lookup` after an id-preserving per-bead update. -/
theorem lookup_updateBead (s : Store) (tid : String) (f : Bead → Bead)
    (hf : ∀ b, (f b).id = b.id) (bid : String) :
    lookup (updateBead s tid f) bid
      = (lookup s bid).map (fun b => if b.id = tid then f b else b) := by
  unfold lookup updateBead
  rw [List.find?_map]
  have hp : ((fun b => decide (b.id = bid)) ∘ fun b => if b.id = tid then f b else b)
      = (fun b : Bead => decide (b.id = bid)) := by
    funext b
    by_cases hc : b.id = tid
    · simp [Function.comp, hc, hf]
    · simp [Function.comp, hc]
  rw [hp]

/-- Behaviour of `lookup` at the updated id itself applies the update function. -/
theorem lookup_updateBead_self (s : Store) (bid : String) (f : Bead → Bead)
    (hf : ∀ b, (f b).id = b.id) :
    lookup (updateBead s bid f) bid = (lookup s bid).map f := by
  rw [lookup_updateBead s bid f hf bid]
  cases hx : lookup s bid with
  | none => rfl
  | some b =>
    have hbe : b.id = bid := by simpa using List.find?_some hx
    simp [hbe]

/-- C7: for a task carrying `task` and `backlog` but not `trivial`,
with no spec reference detectable in its title or description,
`task_promote` with no supplied text is rejected and the store (hence
the record's labels) is unchanged; with supplied text it succeeds, the
text appears in the record's description afterwards, and the transition
removes `backlog` and adds `ready`. -/
theorem c7_promote_spec_gate
    (s : Store) (bid text : String) (b : Bead)
    (hbid : bid ≠ "") (hb : lookup s bid = some b)
    (htask : b.labels.contains "task" = true)
    (hback : b.labels.contains "backlog" = true)
    (hready : b.labels.contains "ready" = false)
    (htriv : b.labels.contains "trivial" = false)
    (hspec : hasSpecRef b = false)
    (htext : text ≠ "") :
    taskPromote s "main" bid ""
      = (s, ToolResult.err ("Task " ++ bid ++ " needs a spec reference before promotion.")) ∧
    (taskPromote s "main" bid text).2
      = ToolResult.ok ("Task " ++ bid ++ " promoted to ready.") ∧
    (lookup (taskPromote s "main" bid text).1 bid).isSome = true ∧
    (∀ b', lookup (taskPromote s "main" bid text).1 bid = some b' →
      strContains b'.description text = true ∧
      b'.labels.contains "backlog" = false ∧
      b'.labels.contains "ready" = true) := by
  have hbeq : b.id = bid := by
    have := List.find?_some hb
    simpa using this
  have htask2 : "task" ∈ b.labels := by simpa [List.contains] using htask
  have hback2 : "backlog" ∈ b.labels := by simpa [List.contains] using hback
  have hready2 : "ready" ∉ b.labels := by simpa [List.contains] using hready
  have htriv2 : "trivial" ∉ b.labels := by simpa [List.contains] using htriv
  have hreject : taskPromote s "main" bid ""
      = (s, ToolResult.err ("Task " ++ bid ++ " needs a spec reference before promotion.")) := by
    unfold taskPromote
    simp [hbid, hb, htask2, hback2, hready2, htriv2, hspec]
  have hexec : taskPromote s "main" bid text
      = (addLabelStore (removeLabelStore (setDescStore s bid
          (if b.description = "" then "Spec: " ++ text
           else b.description ++ "\n\nSpec: " ++ text)) bid "backlog") bid "ready",
         ToolResult.ok ("Task " ++ bid ++ " promoted to ready.")) := by
    unfold taskPromote
    simp [hbid, hb, htask2, hback2, hready2, htriv2, hspec, htext]
  have hlook : lookup (taskPromote s "main" bid text).1 bid
      = some { b with
          description := if b.description = "" then "Spec: " ++ text
            else b.description ++ "\n\nSpec: " ++ text,
          labels :=
            if (b.labels.filter (fun x => x ≠ "backlog")).contains "ready" then
              b.labels.filter (fun x => x ≠ "backlog")
            else b.labels.filter (fun x => x ≠ "backlog") ++ ["ready"] } := by
    rw [hexec]
    dsimp only
    unfold addLabelStore removeLabelStore setDescStore
    rw [lookup_updateBead_self _ bid
        (fun b => { b with labels := if b.labels.contains "ready" then b.labels
                      else b.labels ++ ["ready"] }) (fun _ => rfl),
      lookup_updateBead_self _ bid
        (fun b => { b with labels := b.labels.filter (fun x => x ≠ "backlog") })
        (fun _ => rfl),
      lookup_updateBead_self _ bid
        (fun b0 => { b0 with description := if b.description = "" then "Spec: " ++ text
                       else b.description ++ "\n\nSpec: " ++ text }) (fun _ => rfl),
      hb]
    rfl
  refine ⟨hreject, by rw [hexec], by rw [hlook]; rfl, ?_⟩
  intro b' hb'
  rw [hlook] at hb'
  have hb'' := Option.some.inj hb'
  subst hb''
  refine ⟨?_, ?_, ?_⟩
  · by_cases hd : b.description = ""
    · simp only [hd, if_pos]
      exact strContains_append_right "Spec: " text
    · simp only [if_neg hd]
      exact strContains_append_right (b.description ++ "\n\nSpec: ") text
  · simp only
    by_cases hc : (b.labels.filter (fun x => x ≠ "backlog")).contains "ready"
    · rw [if_pos hc]
      simp [List.contains, List.mem_filter]
    · rw [if_neg hc]
      simp [List.contains, List.mem_filter]
  · simp only
    by_cases hc : (b.labels.filter (fun x => x ≠ "backlog")).contains "ready"
    · rw [if_pos hc]; exact hc
    · rw [if_neg hc]
      simp [List.contains]

/-- Witness for C7: a backlog task with no spec reference anywhere,
promoted with the text `"spec: auth-flow"`. -/
theorem c7_promote_spec_gate_witness :
    taskPromote [mkBead "t1" "Fix login bug" ["task", "backlog"]] "main" "t1" ""
      = ([mkBead "t1" "Fix login bug" ["task", "backlog"]],
         ToolResult.err ("Task " ++ "t1" ++ " needs a spec reference before promotion.")) ∧
    (taskPromote [mkBead "t1" "Fix login bug" ["task", "backlog"]] "main" "t1"
        "spec: auth-flow").2
      = ToolResult.ok ("Task " ++ "t1" ++ " promoted to ready.") ∧
    (lookup (taskPromote [mkBead "t1" "Fix login bug" ["task", "backlog"]] "main" "t1"
        "spec: auth-flow").1 "t1").isSome = true ∧
    (∀ b', lookup (taskPromote [mkBead "t1" "Fix login bug" ["task", "backlog"]] "main" "t1"
        "spec: auth-flow").1 "t1" = some b' →
      strContains b'.description "spec: auth-flow" = true ∧
      b'.labels.contains "backlog" = false ∧
      b'.labels.contains "ready" = true) :=
  c7_promote_spec_gate [mkBead "t1" "Fix login bug" ["task", "backlog"]] "t1"
    "spec: auth-flow" (mkBead "t1" "Fix login bug" ["task", "backlog"])
    (by decide) (by decide) (by decide) (by decide) (by decide) (by decide)
    (by decide) (by decide)

-- ─── C8: the main-session end-to-end scenario ─────────────────────

/-- Counterexample to C8 as stated: with no agentId from the gateway,
the `agent_self` context defaults the agentId to `"main"` (v1 line
443), and `sessionKeyToLabels` pushes it last, so the derived list is
`["main-session", "main"]`, not exactly `["main-session"]`. -/
theorem c8_label_list_counterexample :
    sessionKeyToLabels "agent:main:main" (some (agentSelfAgentId none))
      = ["main-session", "main"] ∧
    sessionKeyToLabels "agent:main:main" (some (agentSelfAgentId none))
      ≠ ["main-session"] := by
  decide

/-- C8 (amended): for session key `agent:main:main` with no gateway
agentId, the `agent_self` default makes the derived label list exactly
`["main-session", "main"]` (the older `bd_identity` copy, which has no
default, derives exactly `["main-session"]`), and `init` with no
existing match creates an identity record whose labels are exactly
`{agent-identity, main-session, session-context}` (creation label
`main-session`). -/
theorem c8_main_session_init (s : Store) (fid : String) (hfid : fid ≠ "")
    (hnone : findIdentityBead s ["main-session", "main"] = none) :
    sessionKeyToLabels "agent:main:main" (some (agentSelfAgentId none))
      = ["main-session", "main"] ∧
    sessionKeyToLabels "agent:main:main" none = ["main-session"] ∧
    initCmd s ["main-session", "main"] "main" fid
      = (s ++ [mkIdentityBead fid "main-session"],
         InitResult.created fid "main-session") ∧
    (mkIdentityBead fid "main-session").labels
      = [IDENTITY_LABEL, "main-session", "session-context"] := by
  refine ⟨by decide, by decide, ?_, rfl⟩
  unfold initCmd
  rw [hnone]
  simp [createIdentityBead, hfid,
    (by decide : initCreateLabel ["main-session", "main"] "main" = "main-session")]

/-- Witness for C8 (amended): the empty store. -/
theorem c8_main_session_init_witness :
    sessionKeyToLabels "agent:main:main" (some (agentSelfAgentId none))
      = ["main-session", "main"] ∧
    sessionKeyToLabels "agent:main:main" none = ["main-session"] ∧
    initCmd [] ["main-session", "main"] "main" "b9"
      = ([] ++ [mkIdentityBead "b9" "main-session"],
         InitResult.created "b9" "main-session") ∧
    (mkIdentityBead "b9" "main-session").labels
      = [IDENTITY_LABEL, "main-session", "session-context"] :=
  c8_main_session_init [] "b9" (by decide) (by decide)

-- ─── C9: discord-channel resolution and the creation label ────────

/-- A strategy-B hit names an identity record one of whose label
strings literally contains the searched label as a substring. -/
theorem strategyBOne_some (s : Store) (l bid : String)
    (h : strategyBOne s l = some bid) :
    ∃ b ∈ s, b.id = bid ∧ b.labels.contains IDENTITY_LABEL = true ∧
      ∃ lb ∈ b.labels, strContains lb l = true := by
  unfold strategyBOne at h
  split at h
  · split at h
    · rename_i b heq
      split at h
      · exact absurd h (by simp)
      · have hbid := Option.some.inj h
        have hbmem := List.mem_of_find?_eq_some heq
        have hbs : b ∈ s := List.mem_of_mem_filter hbmem
        have hpred := List.find?_some heq
        have hfilt := List.of_mem_filter hbmem
        obtain ⟨lb, hlb, hc⟩ := List.any_eq_true.mp hpred
        exact ⟨b, hbs, hbid, hfilt, lb, hlb, hc⟩
    · exact absurd h (by simp)
  · exact absurd h (by simp)

/-- C9: with the derived labels `["1467935902931222589", "discord"]`,
the substring fallback (strategy B) matches an existing record only if
the numeric token literally appears inside one of that record's label
strings; over a store whose only identity record is labelled
`discord-general`, resolution therefore returns none and `init` creates
a new record with creation label `discord`, the purely numeric label
being skipped by the creation-label priority. -/
theorem c9_discord_resolution (s : Store) (bid : String)
    (hB : strategyB s ["1467935902931222589", "discord"] = some bid) :
    (∃ b ∈ s, b.id = bid ∧ b.labels.contains IDENTITY_LABEL = true ∧
      ∃ lb ∈ b.labels, strContains lb "1467935902931222589" = true) ∧
    (∀ fid, fid ≠ "" →
      findIdentityBead
          [mkBead "e1" "Agent Identity: discord-general"
            [IDENTITY_LABEL, "discord-general", "session-context"]]
          ["1467935902931222589", "discord"] = none ∧
      initCmd
          [mkBead "e1" "Agent Identity: discord-general"
            [IDENTITY_LABEL, "discord-general", "session-context"]]
          ["1467935902931222589", "discord"] "discord" fid
        = ([mkBead "e1" "Agent Identity: discord-general"
             [IDENTITY_LABEL, "discord-general", "session-context"],
            mkIdentityBead fid "discord"],
           InitResult.created fid "discord")) := by
  constructor
  · obtain ⟨l, hl, hone⟩ := List.exists_of_findSome?_eq_some hB
    rcases List.mem_cons.mp hl with h1 | h1
    · subst h1
      exact strategyBOne_some s _ bid hone
    · rcases List.mem_cons.mp h1 with h2 | h2
      · subst h2
        unfold strategyBOne at hone
        rw [if_neg (by decide)] at hone
        exact absurd hone (by simp)
      · simp at h2
  · intro fid hfid
    refine ⟨by decide, ?_⟩
    unfold initCmd
    rw [(by decide : findIdentityBead
      [mkBead "e1" "Agent Identity: discord-general"
        [IDENTITY_LABEL, "discord-general", "session-context"]]
      ["1467935902931222589", "discord"] = none)]
    simp [createIdentityBead, hfid,
      (by decide : initCreateLabel ["1467935902931222589", "discord"] "discord"
        = "discord")]

/-- Witness for C9: a store whose identity record is labelled
`discord-1467935902931222589`, which strategy B does match. -/
theorem c9_discord_resolution_witness :
    ∃ b ∈ [mkBead "w1" "Agent Identity"
        [IDENTITY_LABEL, "discord-1467935902931222589"]],
      b.id = "w1" ∧ b.labels.contains IDENTITY_LABEL = true ∧
      ∃ lb ∈ b.labels, strContains lb "1467935902931222589" = true :=
  (c9_discord_resolution
    [mkBead "w1" "Agent Identity" [IDENTITY_LABEL, "discord-1467935902931222589"]]
    "w1" (by decide)).1

-- ─── C10: verbatim discord snowflake tokens ───────────────────────

/-- C10: whenever the colon-split segments of a session key contain the
literal segment `discord` (first occurrence at index `di`) followed in
a later segment by a token of 15 or more digits, `sessionKeyToLabels`
emits verbatim (not prefixed) the first such token found scanning the
segments after `discord` from the end. -/
theorem c10_discord_token_emitted (sessionKey : String) (agentId : Option String)
    (di : Nat) (tok : String)
    (hdi : (jsSplit sessionKey ':').findIdx? (fun p => p = "discord") = some di)
    (htok : (((jsSplit sessionKey ':').drop (di + 1)).reverse).find? isSnowflake
      = some tok) :
    tok ∈ sessionKeyToLabels sessionKey agentId := by
  have htokmem : tok ∈ ((jsSplit sessionKey ':').drop (di + 1)).reverse :=
    List.mem_of_find?_eq_some htok
  have hnonempty : (jsSplit sessionKey ':').drop (di + 1) ≠ [] := by
    intro he
    rw [he] at htokmem
    simp at htokmem
  have hlen : 2 ≤ (jsSplit sessionKey ':').length := by
    by_contra hc
    push_neg at hc
    have : (jsSplit sessionKey ':').drop (di + 1) = [] :=
      List.drop_eq_nil_of_le (by omega)
    exact hnonempty this
  unfold sessionKeyToLabels
  rw [if_pos hlen, hdi]
  dsimp only
  rw [htok]
  simp

/-- Witness for C10: the discord channel session key of the README. -/
theorem c10_discord_token_emitted_witness :
    "1467935902931222589" ∈ sessionKeyToLabels
      "agent:discord:discord:channel:1467935902931222589" (some "discord") :=
  c10_discord_token_emitted "agent:discord:discord:channel:1467935902931222589"
    (some "discord") 1 "1467935902931222589" (by decide) (by decide)

end BdIdentity





